import Mathlib

/-!
Verification development for the contacts-management backend
(`ht_13`): a shallow embedding of its token service, auth flows,
current-user resolver and contact repository, with theorems settling
the claims of the specification against the embedded code.

Times are modelled as integer seconds (Python `datetime.utcnow()`
instants); token payload fields follow the JWT claims used by the
source (`sub`, `iat`, `exp`, `scope`).
-/

namespace HT13

/-- HTTP-level error as raised via `HTTPException(status_code, detail)`. -/
structure HErr where
  status : Nat
  detail : String
deriving DecidableEq, Repr

/-- A JWT as produced by `jose.jwt.encode`: either a well-formed signed
token carrying the claims the source embeds (`sub`, `iat`, `exp`,
`scope`) together with the signing key, or a malformed string that no
decode accepts. Unforgeability of the signature is assumed: decoding
with key `k` succeeds only on tokens signed with `k`. -/
inductive JWToken where
  | signed (sub : String) (iat : Int) (exp : Int) (scope : String) (key : String)
  | malformed (raw : String)
deriving DecidableEq, Repr

/-- Decoded JWT payload. -/
structure Payload where
  sub : String
  iat : Int
  exp : Int
  scope : String
deriving DecidableEq, Repr

/-- `jose.jwt.decode(token, key, algorithms)`: verifies the signature,
then the `exp` claim (`jose` rejects when `exp < now`); any failure
raises `JWTError`, modelled as `none`. -/
def jwtDecode (t : JWToken) (key : String) (now : Int) : Option Payload :=
  match t with
  | .malformed _ => none
  | .signed sub iat exp scope k =>
    if k = key then
      if exp < now then none
      else some ⟨sub, iat, exp, scope⟩
    else none

/-- `Token.create_access_token(data={"sub": sub}, expires_delta)`:
`if expires_delta:` is Python truthiness, so `None` and `0` both select
the 15-minute default. Scope claim is `"access_token"`, signed with
`SECRET_KEY_A`. -/
def create_access_token (sub : String) (expires_delta : Option Int)
    (now : Int) (secret_key_a : String) : JWToken :=
  let expire : Int :=
    match expires_delta with
    | some d => if d ≠ 0 then now + d else now + 15 * 60
    | none => now + 15 * 60
  .signed sub now expire "access_token" secret_key_a

/-- `Token.create_refresh_token(data={"sub": sub}, expires_delta)`:
truthiness as above, default 7 days, scope `"refresh_token"`, signed
with `SECRET_KEY_R`. -/
def create_refresh_token (sub : String) (expires_delta : Option Int)
    (now : Int) (secret_key_r : String) : JWToken :=
  let expire : Int :=
    match expires_delta with
    | some d => if d ≠ 0 then now + d else now + 7 * 24 * 60 * 60
    | none => now + 7 * 24 * 60 * 60
  .signed sub now expire "refresh_token" secret_key_r

/-- `Token.create_email_token(data={"sub": sub})`: no expiry parameter
exists; the expiry is always 1 day. Scope `"email_token"`, signed with
`SECRET_KEY_A` (the access-class secret). -/
def create_email_token (sub : String) (now : Int) (secret_key_a : String) : JWToken :=
  .signed sub now (now + 24 * 60 * 60) "email_token" secret_key_a

/-- `Token.decode_refresh_token(refresh_token)`: decode with
`SECRET_KEY_R`; `JWTError` becomes 401 "Could not validate
credentials"; a decoded payload with scope other than
`"refresh_token"` becomes 401 "Invalid scope for token". -/
def decode_refresh_token (t : JWToken) (secret_key_r : String) (now : Int) :
    Except HErr String :=
  match jwtDecode t secret_key_r now with
  | none => .error ⟨401, "Could not validate credentials"⟩
  | some payload =>
    if payload.scope = "refresh_token" then .ok payload.sub
    else .error ⟨401, "Invalid scope for token"⟩

/-- `Token.get_email_from_token(token)`: decode with `SECRET_KEY_A`;
`JWTError` becomes 422 "Invalid token for email verification"; a
decoded payload with scope other than `"email_token"` becomes 401
"Invalid scope for token". -/
def get_email_from_token (t : JWToken) (secret_key_a : String) (now : Int) :
    Except HErr String :=
  match jwtDecode t secret_key_a now with
  | none => .error ⟨422, "Invalid token for email verification"⟩
  | some payload =>
    if payload.scope = "email_token" then .ok payload.sub
    else .error ⟨401, "Invalid scope for token"⟩

/-- The `credentials_exception` of `CurrentUser.get_current_user`. -/
def credentials_exception : HErr := ⟨401, "Could not validate credentials"⟩

/-- The token-validation phase of `CurrentUser.get_current_user`
(its `try` block): decode with `SECRET_KEY_A`; require scope
`"access_token"`; reject a falsy (empty) `sub`; every failure raises
the same `credentials_exception`. -/
def validate_access (t : JWToken) (secret_key_a : String) (now : Int) :
    Except HErr String :=
  match jwtDecode t secret_key_a now with
  | none => .error credentials_exception
  | some payload =>
    if payload.scope = "access_token" then
      if payload.sub = "" then .error credentials_exception
      else .ok payload.sub
    else .error credentials_exception

/-- `Role` enumeration from `database/models_.py`. -/
inductive Role where
  | admin
  | moderator
  | user
deriving DecidableEq, Repr

/-- A row of the `users` table (`database/models_.py`, class `User`).
The stored `refresh_token` column holds the refresh-token string or
NULL; here it holds the modelled token. -/
structure UserRec where
  id : Nat
  username : String
  email : String
  password : String
  refresh_token : Option JWToken
  avatar : Option String
  roles : Role
  confirmed : Bool
deriving DecidableEq, Repr

/-- The users table, in row order. -/
def UserDB := List UserRec

/-- `repository.users.get_user_by_email(email, db)`:
`db.query(User).filter_by(email=email).first()`. -/
def get_user_by_email (email : String) (db : UserDB) : Option UserRec :=
  db.find? (fun u => decide (u.email = email))

/-- `repository.users.update_token(user, refresh_token, db)`: sets the
attribute `refresh_token` of the row and commits; the row is identified by
its primary key. -/
def update_token (user : UserRec) (rt : Option JWToken) (db : UserDB) : UserDB :=
  db.map (fun u => if u.id = user.id then { u with refresh_token := rt } else u)

/-- Modelled from the spec: the module `ht_13/src/conf/messages.py`
(imported by `routes/auth.py` for `INVALID_EMAIL`,
`EMAIL_NOT_CONFIRMED`, `INVALID_PASSWORD`, `TOKEN_TYPE`) is absent
from the sources. The spec requires "three distinguishable causes,
same status code" for login failures, so the three messages are
modelled as distinct strings. -/
def INVALID_EMAIL : String := "Invalid email"

/-- Modelled from the spec: see `INVALID_EMAIL`. -/
def EMAIL_NOT_CONFIRMED : String := "Email not confirmed"

/-- Modelled from the spec: see `INVALID_EMAIL`. -/
def INVALID_PASSWORD : String := "Invalid password"

/-- Modelled from the spec: see `INVALID_EMAIL`; the token type
returned by login, `"bearer"`. -/
def TOKEN_TYPE : String := "bearer"

/-- The body returned by login/refresh: access token, refresh token,
token type. -/
structure TokenPair where
  access_token : JWToken
  refresh_token : JWToken
  token_type : String
deriving DecidableEq, Repr

/-- `routes.auth.login`: look the user up by the submitted username
(an email); 401 `INVALID_EMAIL` when absent; 401 `EMAIL_NOT_CONFIRMED`
when `confirmed` is false; 401 `INVALID_PASSWORD` when
`Hash.verify_password` rejects; otherwise issue an access and a
refresh token (no explicit expiry) and persist the refresh token on
the row. `verify` stands for the external `passlib` verifier. -/
def login (username password : String) (verify : String → String → Bool)
    (secret_key_a secret_key_r : String) (now : Int) (db : UserDB) :
    Except HErr TokenPair × UserDB :=
  match get_user_by_email username db with
  | none => (.error ⟨401, INVALID_EMAIL⟩, db)
  | some user =>
    if !user.confirmed then (.error ⟨401, EMAIL_NOT_CONFIRMED⟩, db)
    else if !verify password user.password then (.error ⟨401, INVALID_PASSWORD⟩, db)
    else
      let access := create_access_token user.email none now secret_key_a
      let refresh := create_refresh_token user.email none now secret_key_r
      (.ok ⟨access, refresh, TOKEN_TYPE⟩, update_token user (some refresh) db)

/-- `routes.auth.refresh_token`: decode the presented token as a
refresh token; look the user up by the decoded email (`none` models
the uncaught `AttributeError` when that user does not exist); when the
stored `refresh_token` differs from the presented token, clear it and
fail 401 "Invalid refresh token"; otherwise issue a fresh pair and
store the new refresh token. The subject of the access token is the decoded
`email`, that of the refresh token is `user.email`, as in the source. -/
def refresh_op (token : JWToken) (secret_key_a secret_key_r : String)
    (now : Int) (db : UserDB) : Option (Except HErr TokenPair × UserDB) :=
  match decode_refresh_token token secret_key_r now with
  | .error e => some (.error e, db)
  | .ok email =>
    match get_user_by_email email db with
    | none => none
    | some user =>
      if user.refresh_token ≠ some token then
        some (.error ⟨401, "Invalid refresh token"⟩, update_token user none db)
      else
        let access := create_access_token email none now secret_key_a
        let refresh := create_refresh_token user.email none now secret_key_r
        some (.ok ⟨access, refresh, "bearer"⟩, update_token user (some refresh) db)

/-- The identity cache held in Redis: entries `(key, value, ttl)`,
written by `red.set(key, pickle.dumps(user))` followed by
`red.expire(key, 900)`. Prepending shadows any older entry, matching
overwrite semantics. -/
def Cache := List (String × UserRec × Nat)

/-- `red.get(key)`, with `pickle.loads` of the stored serialisation
modelled as the identity round-trip. -/
def cacheGet (c : Cache) (key : String) : Option UserRec :=
  (List.find? (fun e => decide (e.1 = key)) c).map (fun e => e.2.1)

/-- `red.set(key, pickle.dumps(user)); red.expire(key, ttl)`. -/
def cacheSet (c : Cache) (key : String) (u : UserRec) (ttl : Nat) : Cache :=
  (key, u, ttl) :: c

/-- `CurrentUser.get_current_user`: validate the bearer token with
expected scope `access_token`; on success look up `"user:" + email` in
the cache; on a miss load from the store (401 `credentials_exception`
when absent there too), then cache the row with a 900-second TTL. -/
def get_current_user (token : JWToken) (secret_key_a : String) (now : Int)
    (cache : Cache) (db : UserDB) : Except HErr UserRec × Cache :=
  match validate_access token secret_key_a now with
  | .error e => (.error e, cache)
  | .ok email =>
    match cacheGet cache ("user:" ++ email) with
    | none =>
      match get_user_by_email email db with
      | none => (.error credentials_exception, cache)
      | some user => (.ok user, cacheSet cache ("user:" ++ email) user 900)
    | some user => (.ok user, cache)

/-- A Gregorian calendar date as `datetime.date` of Python: the
constructor validates the month/day against the year. -/
structure PyDate where
  year : Nat
  month : Nat
  day : Nat
deriving DecidableEq, Repr

/-- Leap-year rule used by the Python calendar. -/
def isLeapYear (y : Nat) : Bool :=
  y % 4 = 0 && (y % 100 ≠ 0 || y % 400 = 0)

/-- Days in a month of a given year. -/
def daysInMonth (y m : Nat) : Nat :=
  if m = 2 then (if isLeapYear y then 29 else 28)
  else if m = 4 ∨ m = 6 ∨ m = 9 ∨ m = 11 then 30
  else 31

/-- Validity check performed by `datetime.date(year, month, day)`. -/
def validDate (y m d : Nat) : Bool :=
  1 ≤ m && m ≤ 12 && 1 ≤ d && d ≤ daysInMonth y m

/-- `datetime.date(year, month, day)`: raises `ValueError` (modelled
as `none`) on an invalid combination. -/
def mkDate (y m d : Nat) : Option PyDate :=
  if validDate y m d then some ⟨y, m, d⟩ else none

/-- The day after a date. -/
def nextDay (dt : PyDate) : PyDate :=
  if dt.day < daysInMonth dt.year dt.month then ⟨dt.year, dt.month, dt.day + 1⟩
  else if dt.month < 12 then ⟨dt.year, dt.month + 1, 1⟩
  else ⟨dt.year + 1, 1, 1⟩

/-- `dt + timedelta(days=n)`. -/
def addDays (dt : PyDate) : Nat → PyDate
  | 0 => dt
  | n + 1 => nextDay (addDays dt n)

/-- A row of the `contacts` table (`database/models_.py`, class
`Contact`): `email` and `notes` are nullable strings, `birth_date` a
nullable date. -/
structure ContactRec where
  id : Nat
  first_name : String
  last_name : String
  email : Option String
  phone_number : String
  birth_date : Option PyDate
  notes : Option String
deriving DecidableEq, Repr

/-- A row of the `users_contacts` association table (class
`UserToContact`): `(user_id, contact_id)`. -/
structure UserToContactRec where
  user_id : Nat
  contact_id : Nat
deriving DecidableEq, Repr

/-- `repository.contacts.get_contact_ids(user, db)`: the `contact_id`s
of the association rows whose `user_id` is the id of the user. -/
def get_contact_ids (user_id : Nat) (assoc : List UserToContactRec) : List Nat :=
  (assoc.filter (fun r => decide (r.user_id = user_id))).map (fun r => r.contact_id)

/-- `repository.contacts.get_all(limit, offset, user, db)`:
`db.query(Contact).filter(Contact.id.in_(contact_ids)).limit(limit).offset(offset).all()`;
SQL applies OFFSET before LIMIT. -/
def get_all (limit offset : Nat) (contact_ids : List Nat)
    (contacts : List ContactRec) : List ContactRec :=
  ((contacts.filter (fun c => decide (c.id ∈ contact_ids))).drop offset).take limit

/-- `repository.contacts.search(parameter, user, db)`: for each class
attribute of `Contact` that yields a usable `ilike` filter (attributes
that raise are skipped by the `try/except`, so the loop is modelled
over an arbitrary list of per-attribute match predicates), query the
contacts of the user matching that attribute, then
`result.extend([rec for rec in query if rec not in result])`.
`searchStep` is one iteration of that attribute loop. -/
def searchStep (contact_ids : List Nat) (contacts : List ContactRec)
    (result : List ContactRec) (matchAttr : ContactRec → Bool) : List ContactRec :=
  let query := contacts.filter
    (fun c => decide (c.id ∈ contact_ids) && matchAttr c)
  if query.isEmpty then result
  else result ++ query.filter (fun r => !decide (r ∈ result))

/-- The attribute loop of `search`, folding `searchStep` over the
usable attributes starting from the empty `result`. -/
def search (attrs : List (ContactRec → Bool)) (contact_ids : List Nat)
    (contacts : List ContactRec) : List ContactRec :=
  attrs.foldl (searchStep contact_ids contacts) []

/-- The per-contact loop body of `repository.contacts.birthdays`:
`date(year=current_date.year, month=..., day=...)` may raise
`ValueError` (propagated as `none`); otherwise the contact is kept
when that date is in `dates`. Contacts reach this loop only with a
non-null `birth_date`. -/
def birthdaysLoop (year : Nat) (dates : List PyDate) :
    List ContactRec → Option (List ContactRec)
  | [] => some []
  | c :: rest =>
    match c.birth_date with
    | none => birthdaysLoop year dates rest
    | some bd =>
      match mkDate year bd.month bd.day with
      | none => none
      | some b =>
        match birthdaysLoop year dates rest with
        | none => none
        | some r => some (if b ∈ dates then c :: r else r)

/-- `repository.contacts.birthdays(user, db)`: `dates` is today plus
0..6 days; the candidates are the contacts of
`get_all(limit=100, offset=0)` with a non-null `birth_date`; each
birthday of each candidate is rebuilt in the current year and kept when it
is in `dates`. `none` models the uncaught `ValueError` from an invalid
rebuilt date. -/
def birthdays (today : PyDate) (contact_ids : List Nat)
    (contacts : List ContactRec) : Option (List ContactRec) :=
  let dates := (List.range 7).map (fun i => addDays today i)
  let candidates :=
    (get_all 100 0 contact_ids contacts).filter (fun c => c.birth_date.isSome)
  birthdaysLoop today.year dates candidates

/-- The `exp` claim of a token (0 for a malformed string, which
carries no claims). -/
def JWToken.exp : JWToken → Int
  | .signed _ _ e _ _ => e
  | .malformed _ => 0

/-- Claim C10: for access-token and refresh-token issuance, an
explicit expiry override of exactly 0 seconds is treated the same as
no override: the issued token receives the default lifetime (15
minutes for access, 7 days for refresh) rather than being already
expired. -/
theorem C10_zero_override_is_default (sub : String) (now : Int) (kA kR : String) :
    create_access_token sub (some 0) now kA = create_access_token sub none now kA ∧
    create_refresh_token sub (some 0) now kR = create_refresh_token sub none now kR ∧
    (create_access_token sub (some 0) now kA).exp = now + 15 * 60 ∧
    (create_refresh_token sub (some 0) now kR).exp = now + 7 * 24 * 60 * 60 := by
  refine ⟨?_, ?_, ?_, ?_⟩ <;>
    simp [create_access_token, create_refresh_token, JWToken.exp]

/-- Claim C7 as stated is false for email-confirmation tokens:
`create_email_token` accepts no expiry override, so no issuance input
produces an email token whose expiry differs from the fixed 1-day
default. -/
theorem C7_counterexample :
    ¬ ∃ (sub : String) (now : Int) (kA : String),
        (create_email_token sub now kA).exp ≠ now + 24 * 60 * 60 := by
  rintro ⟨sub, now, kA, h⟩
  exact h rfl

/-- Claim C7 (amended): an access token expires 15 minutes after
issuance by default and a refresh token 7 days, each default
replaceable by a nonzero explicit expiry override supplied at
issuance; an email-confirmation token always expires 1 day after
issuance, with no override available. -/
theorem C7_token_lifetimes (sub : String) (now t : Int) (kA kR : String)
    (ht : t ≠ 0) :
    (create_access_token sub none now kA).exp = now + 15 * 60 ∧
    (create_refresh_token sub none now kR).exp = now + 7 * 24 * 60 * 60 ∧
    (create_email_token sub now kA).exp = now + 24 * 60 * 60 ∧
    (create_access_token sub (some t) now kA).exp = now + t ∧
    (create_refresh_token sub (some t) now kR).exp = now + t := by
  refine ⟨rfl, rfl, rfl, ?_, ?_⟩ <;>
    simp [create_access_token, create_refresh_token, JWToken.exp, ht]

/-- Closed witness for `C7_token_lifetimes` at a concrete input. -/
theorem C7_token_lifetimes_witness :
    (3 : Int) ≠ 0 ∧
    ((create_access_token "e@x" none 0 "ka").exp = 0 + 15 * 60 ∧
     (create_refresh_token "e@x" none 0 "kr").exp = 0 + 7 * 24 * 60 * 60 ∧
     (create_email_token "e@x" 0 "ka").exp = 0 + 24 * 60 * 60 ∧
     (create_access_token "e@x" (some 3) 0 "ka").exp = 0 + 3 ∧
     (create_refresh_token "e@x" (some 3) 0 "kr").exp = 0 + 3) :=
  ⟨by decide, C7_token_lifetimes "e@x" 0 3 "ka" "kr" (by decide)⟩

/-- Claim C4 as stated is false for the access scope with an empty
subject: the access-token validation phase of
`CurrentUser.get_current_user` rejects a falsy `sub`
(`if not email: raise credentials_exception`), so validating a freshly
issued access token whose subject is `""` fails instead of returning
`""`. -/
theorem C4_counterexample :
    validate_access (create_access_token "" (some 900) 0 "ka") "ka" 0 =
      .error credentials_exception := by
  rfl

/-- Claim C4 (amended): for scope refresh with any subject, for scope
email with any subject, and for scope access with any non-empty
subject, validating a token immediately after issuing it with a
positive ttl against the same expected scope succeeds and returns the
subject (email tokens take no ttl at issuance; their lifetime is the
fixed 1-day default). -/
theorem C4_validate_roundtrip (e kA kR : String) (now t : Int)
    (ht : 0 < t) :
    decode_refresh_token (create_refresh_token e (some t) now kR) kR now = .ok e ∧
    get_email_from_token (create_email_token e now kA) kA now = .ok e ∧
    (e ≠ "" →
      validate_access (create_access_token e (some t) now kA) kA now = .ok e) := by
  have htz : t ≠ 0 := by omega
  have h1 : ¬ (now + t < now) := by omega
  have h2 : ¬ (now + 24 * 60 * 60 < now) := by omega
  refine ⟨?_, ?_, ?_⟩
  · simp [create_refresh_token, decode_refresh_token, jwtDecode, htz, h1]
  · simp [create_email_token, get_email_from_token, jwtDecode, h2]
  · intro he
    simp [create_access_token, validate_access, jwtDecode, htz, h1, he]

/-- Closed witness for `C4_validate_roundtrip` at the empty subject:
the refresh and email roundtrips succeed even there, while the
access-side conjunct applies only to non-empty subjects. -/
theorem C4_validate_roundtrip_witness :
    (0 : Int) < 900 ∧
    (decode_refresh_token (create_refresh_token "" (some 900) 0 "kr") "kr" 0 =
        .ok "" ∧
     get_email_from_token (create_email_token "" 0 "ka") "ka" 0 = .ok "" ∧
     ("" ≠ "" →
       validate_access (create_access_token "" (some 900) 0 "ka") "ka" 0 =
         .ok "")) :=
  ⟨by decide, C4_validate_roundtrip "" "ka" "kr" 0 900 (by decide)⟩

/-- Claim C5 as stated is false when the access and refresh secrets
differ (the spec itself requires independent secrets): an unexpired
access-scoped token presented to refresh validation then fails
signature verification, yielding the generic credentials error, not
the scope-mismatch error. -/
theorem C5_counterexample :
    decode_refresh_token (create_access_token "e@x" (some 900) 0 "secret_a")
        "secret_r" 0 =
      .error ⟨401, "Could not validate credentials"⟩ ∧
    (⟨401, "Could not validate credentials"⟩ : HErr) ≠
      ⟨401, "Invalid scope for token"⟩ := by
  exact ⟨rfl, by decide⟩

/-- Claim C5 (amended): cross-scope validation of an unexpired token
always fails with a 401. On the access side every failure is the
uniform `credentials_exception`, so no distinct scope-mismatch error
is observable there. On the refresh side, an access-scoped token
fails with the scope-mismatch error exactly when the two secrets are
equal (as in the shipped defaults); with independent secrets it fails
signature verification first, with the generic credentials error. -/
theorem C5_cross_scope (e kA kR : String) (now t : Int) (ht : 0 < t) :
    validate_access (create_refresh_token e (some t) now kR) kA now =
      .error credentials_exception ∧
    (kA = kR →
      decode_refresh_token (create_access_token e (some t) now kA) kR now =
        .error ⟨401, "Invalid scope for token"⟩) ∧
    (kA ≠ kR →
      decode_refresh_token (create_access_token e (some t) now kA) kR now =
        .error ⟨401, "Could not validate credentials"⟩) := by
  have htz : t ≠ 0 := by omega
  have h1 : ¬ (now + t < now) := by omega
  refine ⟨?_, ?_, ?_⟩
  · by_cases hk : kR = kA
    · simp [create_refresh_token, validate_access, jwtDecode, htz, h1, hk]
    · simp [create_refresh_token, validate_access, jwtDecode, htz, h1, hk]
  · intro hk
    simp [create_access_token, decode_refresh_token, jwtDecode, htz, h1, hk]
  · intro hk
    simp [create_access_token, decode_refresh_token, jwtDecode, htz, h1, hk]

/-- Closed witness for `C5_cross_scope` at a concrete input. -/
theorem C5_cross_scope_witness :
    (0 : Int) < 900 ∧
    (validate_access (create_refresh_token "e@x" (some 900) 0 "kr") "ka" 0 =
        .error credentials_exception ∧
     ("ka" = "kr" →
       decode_refresh_token (create_access_token "e@x" (some 900) 0 "ka") "kr" 0 =
         .error ⟨401, "Invalid scope for token"⟩) ∧
     ("ka" ≠ "kr" →
       decode_refresh_token (create_access_token "e@x" (some 900) 0 "ka") "kr" 0 =
         .error ⟨401, "Could not validate credentials"⟩)) :=
  ⟨by decide, C5_cross_scope "e@x" "ka" "kr" 0 900 (by decide)⟩

/-- Claim C6: token validation verifies signature and expiry (inside
`jwt.decode`) before the scope claim is inspected, and the failures
map to distinguishable errors: on the refresh flow signature/expiry
failure yields the generic 401 (even when the scope claim is also
wrong, showing the order), scope mismatch yields the scope-specific
401, and on the email flow a token failing `jwt.decode` (malformed,
bad signature or expired) yields 422 while a wrong scope on a
decodable token still yields the scope-specific 401; the three errors
are pairwise distinct. -/
theorem C6_error_taxonomy (sub scope k k2 raw : String) (now iat exp : Int) :
    (k ≠ k2 →
      decode_refresh_token (.signed sub iat exp scope k) k2 now =
        .error ⟨401, "Could not validate credentials"⟩) ∧
    (exp < now →
      decode_refresh_token (.signed sub iat exp scope k) k now =
        .error ⟨401, "Could not validate credentials"⟩) ∧
    (¬ exp < now → scope ≠ "refresh_token" →
      decode_refresh_token (.signed sub iat exp scope k) k now =
        .error ⟨401, "Invalid scope for token"⟩) ∧
    (get_email_from_token (.malformed raw) k now =
      .error ⟨422, "Invalid token for email verification"⟩) ∧
    (k ≠ k2 →
      get_email_from_token (.signed sub iat exp scope k) k2 now =
        .error ⟨422, "Invalid token for email verification"⟩) ∧
    (¬ exp < now → scope ≠ "email_token" →
      get_email_from_token (.signed sub iat exp scope k) k now =
        .error ⟨401, "Invalid scope for token"⟩) ∧
    (⟨401, "Could not validate credentials"⟩ : HErr) ≠
      ⟨401, "Invalid scope for token"⟩ ∧
    (⟨422, "Invalid token for email verification"⟩ : HErr) ≠
      ⟨401, "Could not validate credentials"⟩ ∧
    (⟨422, "Invalid token for email verification"⟩ : HErr) ≠
      ⟨401, "Invalid scope for token"⟩ := by
  refine ⟨?_, ?_, ?_, rfl, ?_, ?_, by decide, by decide, by decide⟩
  · intro hk
    simp [decode_refresh_token, jwtDecode, hk]
  · intro hx
    simp [decode_refresh_token, jwtDecode, hx]
  · intro hx hs
    simp [decode_refresh_token, jwtDecode, hx, hs]
  · intro hk
    simp [get_email_from_token, jwtDecode, hk]
  · intro hx hs
    simp [get_email_from_token, jwtDecode, hx, hs]

/-- Closed witness for `C6_error_taxonomy` at a concrete input,
discharging each hypothesis of each conjunct. -/
theorem C6_error_taxonomy_witness :
    (decode_refresh_token (.signed "e@x" 0 100 "other" "ka") "kb" 0 =
      .error ⟨401, "Could not validate credentials"⟩) ∧
    (decode_refresh_token (.signed "e@x" 0 100 "other" "ka") "ka" 200 =
      .error ⟨401, "Could not validate credentials"⟩) ∧
    (decode_refresh_token (.signed "e@x" 0 100 "other" "ka") "ka" 0 =
      .error ⟨401, "Invalid scope for token"⟩) ∧
    (get_email_from_token (.malformed "xyz") "ka" 0 =
      .error ⟨422, "Invalid token for email verification"⟩) ∧
    (get_email_from_token (.signed "e@x" 0 100 "other" "ka") "kb" 0 =
      .error ⟨422, "Invalid token for email verification"⟩) ∧
    (get_email_from_token (.signed "e@x" 0 100 "other" "ka") "ka" 0 =
      .error ⟨401, "Invalid scope for token"⟩) :=
  have h0 := C6_error_taxonomy "e@x" "other" "ka" "kb" "xyz" 0 0 100
  have h2 := C6_error_taxonomy "e@x" "other" "ka" "kb" "xyz" 200 0 100
  ⟨h0.1 (by decide),
   h2.2.1 (by decide),
   h0.2.2.1 (by decide) (by decide),
   h0.2.2.2.1,
   h0.2.2.2.2.1 (by decide),
   h0.2.2.2.2.2.1 (by decide) (by decide)⟩

/-- Claim C2: login on an identity with `confirmed = false` fails 401
with the unconfirmed-specific message — which differs from the
invalid-password message — and leaves the database (hence the stored
refresh token) unchanged and issues no token, for every submitted
password and every password verifier, correct ones included. -/
theorem C2_unconfirmed_never_logs_in (db : UserDB) (u : UserRec)
    (username password : String) (verify : String → String → Bool)
    (kA kR : String) (now : Int)
    (hu : get_user_by_email username db = some u)
    (hc : u.confirmed = false) :
    login username password verify kA kR now db =
      (.error ⟨401, EMAIL_NOT_CONFIRMED⟩, db) ∧
    EMAIL_NOT_CONFIRMED ≠ INVALID_PASSWORD := by
  constructor
  · unfold login
    rw [hu]
    simp [hc]
  · decide

/-- Closed witness for `C2_unconfirmed_never_logs_in` at a concrete
unconfirmed identity whose submitted password is correct. -/
theorem C2_unconfirmed_never_logs_in_witness :
    (get_user_by_email "b@x"
        [⟨1, "bob", "b@x", "pw", none, none, .user, false⟩] =
      some ⟨1, "bob", "b@x", "pw", none, none, .user, false⟩ ∧
     (⟨1, "bob", "b@x", "pw", none, none, .user, false⟩ : UserRec).confirmed =
      false) ∧
    (login "b@x" "pw" (fun a b => decide (a = b)) "ka" "kr" 0
        [⟨1, "bob", "b@x", "pw", none, none, .user, false⟩] =
      (.error ⟨401, EMAIL_NOT_CONFIRMED⟩,
        [⟨1, "bob", "b@x", "pw", none, none, .user, false⟩]) ∧
     EMAIL_NOT_CONFIRMED ≠ INVALID_PASSWORD) :=
  ⟨⟨rfl, rfl⟩,
   C2_unconfirmed_never_logs_in
     [⟨1, "bob", "b@x", "pw", none, none, .user, false⟩]
     ⟨1, "bob", "b@x", "pw", none, none, .user, false⟩
     "b@x" "pw" (fun a b => decide (a = b)) "ka" "kr" 0 rfl rfl⟩

/-- Claim C3: when the bearer token validates with expected scope
access and subject email `e`, the resolver returns the cached identity
for `e` on a cache hit; on a miss it loads from the store — failing
with the 401 `credentials_exception` when the store has no match —
and otherwise returns the loaded identity after writing it into the
cache under key `"user:" ++ e` with a 900-second TTL. -/
theorem C3_current_user_resolution (tok : JWToken) (kA : String) (now : Int)
    (cache : Cache) (db : UserDB) (e : String)
    (hval : validate_access tok kA now = .ok e) :
    (∀ u, cacheGet cache ("user:" ++ e) = some u →
      get_current_user tok kA now cache db = (.ok u, cache)) ∧
    (cacheGet cache ("user:" ++ e) = none → get_user_by_email e db = none →
      get_current_user tok kA now cache db =
        (.error credentials_exception, cache) ∧
      credentials_exception.status = 401) ∧
    (∀ u, cacheGet cache ("user:" ++ e) = none → get_user_by_email e db = some u →
      get_current_user tok kA now cache db =
        (.ok u, cacheSet cache ("user:" ++ e) u 900)) := by
  refine ⟨?_, ?_, ?_⟩
  · intro u hcache
    simp only [get_current_user, hval, hcache]
  · intro hcache hdb
    refine ⟨?_, rfl⟩
    simp only [get_current_user, hval, hcache, hdb]
  · intro u hcache hdb
    simp only [get_current_user, hval, hcache, hdb]

/-- Closed witness for `C3_current_user_resolution` at a concrete
token, empty cache and one-row store. -/
theorem C3_current_user_resolution_witness :
    (validate_access (create_access_token "b@x" (some 900) 0 "ka") "ka" 0 =
      .ok "b@x") ∧
    ((∀ u, cacheGet [] ("user:" ++ "b@x") = some u →
       get_current_user (create_access_token "b@x" (some 900) 0 "ka") "ka" 0 []
         [⟨1, "bob", "b@x", "pw", none, none, .user, true⟩] = (.ok u, [])) ∧
     (cacheGet [] ("user:" ++ "b@x") = none →
      get_user_by_email "b@x"
          [⟨1, "bob", "b@x", "pw", none, none, .user, true⟩] = none →
       get_current_user (create_access_token "b@x" (some 900) 0 "ka") "ka" 0 []
           [⟨1, "bob", "b@x", "pw", none, none, .user, true⟩] =
         (.error credentials_exception, []) ∧
       credentials_exception.status = 401) ∧
     (∀ u, cacheGet [] ("user:" ++ "b@x") = none →
      get_user_by_email "b@x"
          [⟨1, "bob", "b@x", "pw", none, none, .user, true⟩] = some u →
       get_current_user (create_access_token "b@x" (some 900) 0 "ka") "ka" 0 []
           [⟨1, "bob", "b@x", "pw", none, none, .user, true⟩] =
         (.ok u, cacheSet [] ("user:" ++ "b@x") u 900))) :=
  ⟨rfl,
   C3_current_user_resolution (create_access_token "b@x" (some 900) 0 "ka")
     "ka" 0 [] [⟨1, "bob", "b@x", "pw", none, none, .user, true⟩] "b@x" rfl⟩

/-- A refresh-token decode that succeeds did so on a signed token
carrying the decoded subject, scope `"refresh_token"` and the decoding
key, unexpired at decode time. -/
lemma decode_refresh_token_ok_inv (t : JWToken) (k : String) (now : Int)
    (e : String) (h : decode_refresh_token t k now = .ok e) :
    ∃ iat exp, t = .signed e iat exp "refresh_token" k ∧ ¬ exp < now := by
  cases t with
  | malformed r => simp [decode_refresh_token, jwtDecode] at h
  | signed s i x sc kk =>
    by_cases hk : kk = k
    · subst hk
      by_cases hx : x < now
      · simp [decode_refresh_token, jwtDecode, hx] at h
      · by_cases hs : sc = "refresh_token"
        · simp [decode_refresh_token, jwtDecode, hx, hs] at h
          exact ⟨i, x, by rw [hs, h], hx⟩
        · simp [decode_refresh_token, jwtDecode, hx, hs] at h
    · simp [decode_refresh_token, jwtDecode, hk] at h

/-- Every error raised by refresh-token decoding is a 401. -/
lemma decode_refresh_token_error_status (t : JWToken) (k : String) (now : Int)
    (err : HErr) (h : decode_refresh_token t k now = .error err) :
    err.status = 401 := by
  unfold decode_refresh_token at h
  split at h
  · simp only [Except.error.injEq] at h
    rw [← h]
  · split at h
    · exact absurd h (by simp)
    · simp only [Except.error.injEq] at h
      rw [← h]

/-- Rewriting the stored refresh token of the row found by an email
lookup is observed by the next lookup with the same email. -/
lemma get_user_by_email_update_token (e : String) (u : UserRec)
    (rt : Option JWToken) (db : UserDB)
    (hu : get_user_by_email e db = some u) :
    get_user_by_email e (update_token u rt db) =
      some { u with refresh_token := rt } := by
  unfold get_user_by_email at hu ⊢
  unfold update_token
  induction db with
  | nil => simp at hu
  | cons v vs ih =>
    by_cases he : v.email = e
    · rw [List.find?_cons_of_pos _ (by simpa using he)] at hu
      obtain rfl : v = u := by injection hu
      rw [List.map_cons, List.find?_cons_of_pos _ ?_]
      · simp
      · by_cases hid : v.id = v.id <;> simp [hid, he]
    · rw [List.find?_cons_of_neg _ (by simpa using he)] at hu
      rw [List.map_cons, List.find?_cons_of_neg _ ?_]
      · exact ih hu
      · by_cases hid : v.id = u.id <;> simp [hid, he]

/-- Claim C1: presenting a syntactically valid, unexpired,
refresh-scoped token for an existing identity that differs from the
stored refresh token makes the refresh operation clear the stored
token (set it to none) and fail 401 "Invalid refresh token"; a
subsequent refresh attempt with the same token, at any later instant,
again fails with a 401. -/
theorem C1_refresh_mismatch_clears_and_rejects (db : UserDB) (u : UserRec)
    (tok : JWToken) (kA kR : String) (now now2 : Int) (e : String)
    (hdec : decode_refresh_token tok kR now = .ok e)
    (hu : get_user_by_email e db = some u)
    (hne : u.refresh_token ≠ some tok) :
    refresh_op tok kA kR now db =
      some (.error ⟨401, "Invalid refresh token"⟩, update_token u none db) ∧
    get_user_by_email e (update_token u none db) =
      some { u with refresh_token := none } ∧
    ∃ err db2,
      refresh_op tok kA kR now2 (update_token u none db) =
        some (.error err, db2) ∧ err.status = 401 := by
  have hclear := get_user_by_email_update_token e u none db hu
  refine ⟨?_, hclear, ?_⟩
  · simp only [refresh_op, hdec, hu]
    rw [if_pos hne]
  · cases hdec2 : decode_refresh_token tok kR now2 with
    | error err2 =>
      refine ⟨err2, update_token u none db, ?_,
        decode_refresh_token_error_status _ _ _ _ hdec2⟩
      simp only [refresh_op, hdec2]
    | ok e2 =>
      obtain ⟨i, x, rfl, hx⟩ := decode_refresh_token_ok_inv tok kR now e hdec
      have he2 : e2 = e := by
        by_cases h2 : x < now2
        · simp [decode_refresh_token, jwtDecode, h2] at hdec2
        · simp [decode_refresh_token, jwtDecode, h2] at hdec2
          exact hdec2.symm
      subst he2
      refine ⟨⟨401, "Invalid refresh token"⟩,
        update_token { u with refresh_token := none } none
          (update_token u none db), ?_, rfl⟩
      simp only [refresh_op, hdec2, hclear]
      rw [if_pos (by simp)]

/-- Closed witness for `C1_refresh_mismatch_clears_and_rejects`: a
valid unexpired refresh token for the stored identity that differs
from the stored one. -/
theorem C1_refresh_mismatch_clears_and_rejects_witness :
    (decode_refresh_token (.signed "b@x" 0 900 "refresh_token" "kr") "kr" 0 =
      .ok "b@x" ∧
     get_user_by_email "b@x"
        [⟨1, "bob", "b@x", "pw",
          some (.signed "b@x" 0 500 "refresh_token" "kr"), none, .user, true⟩] =
      some ⟨1, "bob", "b@x", "pw",
        some (.signed "b@x" 0 500 "refresh_token" "kr"), none, .user, true⟩ ∧
     (⟨1, "bob", "b@x", "pw",
        some (.signed "b@x" 0 500 "refresh_token" "kr"), none, .user,
        true⟩ : UserRec).refresh_token ≠
      some (.signed "b@x" 0 900 "refresh_token" "kr")) ∧
    (refresh_op (.signed "b@x" 0 900 "refresh_token" "kr") "ka" "kr" 0
        [⟨1, "bob", "b@x", "pw",
          some (.signed "b@x" 0 500 "refresh_token" "kr"), none, .user, true⟩] =
      some (.error ⟨401, "Invalid refresh token"⟩,
        update_token
          ⟨1, "bob", "b@x", "pw",
            some (.signed "b@x" 0 500 "refresh_token" "kr"), none, .user, true⟩
          none
          [⟨1, "bob", "b@x", "pw",
            some (.signed "b@x" 0 500 "refresh_token" "kr"), none, .user,
            true⟩]) ∧
     get_user_by_email "b@x"
        (update_token
          ⟨1, "bob", "b@x", "pw",
            some (.signed "b@x" 0 500 "refresh_token" "kr"), none, .user, true⟩
          none
          [⟨1, "bob", "b@x", "pw",
            some (.signed "b@x" 0 500 "refresh_token" "kr"), none, .user,
            true⟩]) =
      some { (⟨1, "bob", "b@x", "pw",
          some (.signed "b@x" 0 500 "refresh_token" "kr"), none, .user,
          true⟩ : UserRec) with refresh_token := none } ∧
     ∃ err db2,
       refresh_op (.signed "b@x" 0 900 "refresh_token" "kr") "ka" "kr" 7
          (update_token
            ⟨1, "bob", "b@x", "pw",
              some (.signed "b@x" 0 500 "refresh_token" "kr"), none, .user,
              true⟩
            none
            [⟨1, "bob", "b@x", "pw",
              some (.signed "b@x" 0 500 "refresh_token" "kr"), none, .user,
              true⟩]) =
         some (.error err, db2) ∧ err.status = 401) :=
  ⟨⟨rfl, rfl, by decide⟩,
   C1_refresh_mismatch_clears_and_rejects
     [⟨1, "bob", "b@x", "pw",
       some (.signed "b@x" 0 500 "refresh_token" "kr"), none, .user, true⟩]
     ⟨1, "bob", "b@x", "pw",
       some (.signed "b@x" 0 500 "refresh_token" "kr"), none, .user, true⟩
     (.signed "b@x" 0 900 "refresh_token" "kr") "ka" "kr" 0 7 "b@x"
     rfl rfl (by decide)⟩

/-- `searchStep` with its `let` unfolded, for case analysis. -/
lemma searchStep_eq (contact_ids : List Nat) (contacts : List ContactRec)
    (result : List ContactRec) (matchAttr : ContactRec → Bool) :
    searchStep contact_ids contacts result matchAttr =
      if (contacts.filter
            (fun c => decide (c.id ∈ contact_ids) && matchAttr c)).isEmpty then
        result
      else
        result ++ (contacts.filter
            (fun c => decide (c.id ∈ contact_ids) && matchAttr c)).filter
          (fun r => !decide (r ∈ result)) := rfl

/-- Accumulator invariant of the attribute loop of `search`: rows
collected so far are pairwise distinct and all linked to the user. -/
lemma search_foldl_inv (attrs : List (ContactRec → Bool))
    (contact_ids : List Nat) (contacts : List ContactRec)
    (hnd : contacts.Nodup) :
    ∀ acc : List ContactRec, acc.Nodup → (∀ c ∈ acc, c.id ∈ contact_ids) →
      (attrs.foldl (searchStep contact_ids contacts) acc).Nodup ∧
      ∀ c ∈ attrs.foldl (searchStep contact_ids contacts) acc,
        c.id ∈ contact_ids := by
  induction attrs with
  | nil =>
    intro acc h1 h2
    exact ⟨h1, h2⟩
  | cons a as ih =>
    intro acc h1 h2
    simp only [List.foldl_cons]
    apply ih
    · show (searchStep contact_ids contacts acc a).Nodup
      rw [searchStep_eq]
      split
      · exact h1
      · refine List.Nodup.append h1 ((hnd.filter _).filter _) ?_
        intro x hx hx2
        have hmem := (List.mem_filter.mp hx2).2
        simp only [Bool.not_eq_true', decide_eq_false_iff_not] at hmem
        exact hmem hx
    · intro c hc
      rw [searchStep_eq] at hc
      split at hc
      · exact h2 c hc
      · rcases List.mem_append.mp hc with h | h
        · exact h2 c h
        · have h1' := (List.mem_filter.mp h).1
          have h2' := (List.mem_filter.mp h1').2
          simp only [Bool.and_eq_true, decide_eq_true_eq] at h2'
          exact h2'.1

/-- Claim C8: every contact returned by the search operation is linked
to the user (its id is among the contact ids of the user) and appears
at most once in the result, for every list of usable attribute
predicates — provided the contact rows are distinct, which the
primary key guarantees. -/
theorem C8_search_linked_and_unique (attrs : List (ContactRec → Bool))
    (contact_ids : List Nat) (contacts : List ContactRec)
    (hids : (contacts.map (fun c => c.id)).Nodup) :
    (∀ c ∈ search attrs contact_ids contacts, c.id ∈ contact_ids) ∧
    (search attrs contact_ids contacts).Nodup := by
  have hnd : contacts.Nodup := hids.of_map
  have h := search_foldl_inv attrs contact_ids contacts hnd [] List.nodup_nil
    (by intro c hc; cases hc)
  exact ⟨h.2, h.1⟩

/-- Closed witness for `C8_search_linked_and_unique`: two attribute
predicates that both match the same contact. -/
theorem C8_search_linked_and_unique_witness :
    ((([⟨1, "Ann", "Lee", none, "111", none, none⟩,
        ⟨2, "Bob", "Ann", none, "222", none, none⟩,
        ⟨3, "Ann", "Ann", none, "333", none, none⟩] :
          List ContactRec).map (fun c => c.id)).Nodup) ∧
    ((∀ c ∈ search
        [fun c => decide (c.first_name = "Ann"), fun c => decide (c.last_name = "Ann")]
        [1, 2]
        [⟨1, "Ann", "Lee", none, "111", none, none⟩,
         ⟨2, "Bob", "Ann", none, "222", none, none⟩,
         ⟨3, "Ann", "Ann", none, "333", none, none⟩],
        c.id ∈ [1, 2]) ∧
     (search
        [fun c => decide (c.first_name = "Ann"), fun c => decide (c.last_name = "Ann")]
        [1, 2]
        [⟨1, "Ann", "Lee", none, "111", none, none⟩,
         ⟨2, "Bob", "Ann", none, "222", none, none⟩,
         ⟨3, "Ann", "Ann", none, "333", none, none⟩]).Nodup) :=
  ⟨by decide,
   C8_search_linked_and_unique
     [fun c => decide (c.first_name = "Ann"), fun c => decide (c.last_name = "Ann")]
     [1, 2]
     [⟨1, "Ann", "Lee", none, "111", none, none⟩,
      ⟨2, "Bob", "Ann", none, "222", none, none⟩,
      ⟨3, "Ann", "Ann", none, "333", none, none⟩]
     (by decide)⟩

/-- Whether the birth date of a contact (when present) names a valid
date of the given year — when it does not (February 29 in a non-leap
year), the `date(...)` call inside `birthdays` raises. -/
def birthdateValidIn (year : Nat) (c : ContactRec) : Bool :=
  match c.birth_date with
  | none => true
  | some bd => (mkDate year bd.month bd.day).isSome

/-- Whether the birthday of a contact, reinterpreted in the given
year, falls on one of the given dates. -/
def birthdayInWindow (year : Nat) (dates : List PyDate) (c : ContactRec) : Bool :=
  match c.birth_date with
  | none => false
  | some bd =>
    match mkDate year bd.month bd.day with
    | none => false
    | some b => decide (b ∈ dates)

/-- When every contact in the list has a birth date valid in the
given year, the loop of `birthdays` returns exactly the contacts
whose reinterpreted birthday is in the window. -/
lemma birthdaysLoop_eq (year : Nat) (dates : List PyDate)
    (l : List ContactRec)
    (hv : ∀ c ∈ l, birthdateValidIn year c = true) :
    birthdaysLoop year dates l = some (l.filter (birthdayInWindow year dates)) := by
  induction l with
  | nil => rfl
  | cons c rest ih =>
    have hrest := ih (fun c' hc' => hv c' (List.mem_cons_of_mem _ hc'))
    cases hbd : c.birth_date with
    | none =>
      simp only [birthdaysLoop, hbd, hrest, List.filter_cons, birthdayInWindow]
      simp [hbd]
    | some bd =>
      have hsome := hv c (List.mem_cons_self _ _)
      simp only [birthdateValidIn, hbd] at hsome
      cases hmk : mkDate year bd.month bd.day with
      | none => rw [hmk] at hsome; simp at hsome
      | some b =>
        simp only [birthdaysLoop, hbd, hmk, hrest, List.filter_cons,
          birthdayInWindow]
        by_cases hin : b ∈ dates
        · simp [hbd, hmk, hin]
        · simp [hbd, hmk, hin]

/-- Claim C9 as stated is false when a considered contact has a
February 29 birth date and the current year is not a leap year: the
operation then fails (uncaught `ValueError`) instead of returning the
described list. -/
theorem C9_counterexample :
    birthdays ⟨2025, 6, 1⟩ [1]
      [⟨1, "Ann", "Lee", none, "111", some ⟨2000, 2, 29⟩, none⟩] = none := by
  decide

/-- Claim C9 (amended): the birthdays operation considers only the
first 100 of the contacts of the user and — provided the birth date
of every considered contact names a valid date of the current year —
returns exactly those with a non-null birth date whose birthday,
reinterpreted in the current calendar year, falls on one of today
through today plus 6 days; the reinterpretation keeps the current
year, so the window never wraps past a year boundary. When some
considered birth date is invalid in the current year (February 29,
non-leap year) the operation instead fails. -/
theorem C9_birthdays_window (today : PyDate) (contact_ids : List Nat)
    (contacts : List ContactRec)
    (hvalid : ∀ c ∈ (get_all 100 0 contact_ids contacts).filter
        (fun c => c.birth_date.isSome),
      birthdateValidIn today.year c = true) :
    birthdays today contact_ids contacts =
      some (((get_all 100 0 contact_ids contacts).filter
          (fun c => c.birth_date.isSome)).filter
        (birthdayInWindow today.year
          ((List.range 7).map (fun i => addDays today i)))) := by
  unfold birthdays
  exact birthdaysLoop_eq today.year _ _ hvalid

/-- Closed witness for `C9_birthdays_window`, placed at the year
boundary: today is 2024-12-28, the single contact has birthday
January 2, and the result is empty — the rebuilt date 2024-01-02 is
not among 2024-12-28 … 2025-01-03. -/
theorem C9_birthdays_window_witness :
    (∀ c ∈ (get_all 100 0 [1]
        [⟨1, "Ann", "Lee", none, "111", some ⟨1990, 1, 2⟩, none⟩]).filter
        (fun c => c.birth_date.isSome),
      birthdateValidIn (2024 : Nat) c = true) ∧
    birthdays ⟨2024, 12, 28⟩ [1]
        [⟨1, "Ann", "Lee", none, "111", some ⟨1990, 1, 2⟩, none⟩] =
      some (((get_all 100 0 [1]
          [⟨1, "Ann", "Lee", none, "111", some ⟨1990, 1, 2⟩, none⟩]).filter
          (fun c => c.birth_date.isSome)).filter
        (birthdayInWindow 2024
          ((List.range 7).map (fun i => addDays ⟨2024, 12, 28⟩ i)))) ∧
    birthdays ⟨2024, 12, 28⟩ [1]
        [⟨1, "Ann", "Lee", none, "111", some ⟨1990, 1, 2⟩, none⟩] =
      some [] :=
  ⟨by decide,
   C9_birthdays_window ⟨2024, 12, 28⟩ [1]
     [⟨1, "Ann", "Lee", none, "111", some ⟨1990, 1, 2⟩, none⟩] (by decide),
   by decide⟩

end HT13
